import Mathlib

/-!
Verification of the signal-fusion and backtesting core of the
sentiment-trading repository.  The Python sources are shallowly embedded:
floats become rationals, `None`-able indicator fields become `Option ℚ`,
Python `int()` truncation becomes an explicit floor/ceil on ℚ, and the
day-by-day backtest loop becomes a structural recursion returning the
trace of daily portfolio states together with an optional first raised
exception.
-/

namespace SentimentTrading

/-! ## Technical Scorer (src/strategy/trading_strategy.py, _calculate_technical_score)

The indicator dictionary produced by `_calculate_indicators_for_date`
always carries all thirteen keys, each possibly `None`; we embed it as a
structure of `Option ℚ` fields.
-/

structure Indicators where
  RSI : Option ℚ
  MACD : Option ℚ
  MACD_signal : Option ℚ
  MACD_diff : Option ℚ
  MA_20 : Option ℚ
  MA_50 : Option ℚ
  MA_200 : Option ℚ
  BB_high : Option ℚ
  BB_low : Option ℚ
  BB_mid : Option ℚ
  current_price : Option ℚ
  volume : Option ℚ
  volume_sma : Option ℚ
deriving DecidableEq

/-- The indicator set with every field `None` (all keys missing or null). -/
def Indicators.empty : Indicators :=
  ⟨none, none, none, none, none, none, none, none, none, none, none, none, none⟩

/-- Python truthiness of an optional float: `None` and `0.0` are falsy. -/
def truthy (o : Option ℚ) : Bool :=
  match o with
  | none => false
  | some x => decide (x ≠ 0)

/-- Python's binary `min` on floats, embedded directly so that terms
reduce in the kernel. -/
def pyMin (a b : ℚ) : ℚ := if b ≤ a then b else a

/-- Python's binary `max` on floats. -/
def pyMax (a b : ℚ) : ℚ := if a ≤ b then b else a

/-- Clamp to [-1, 1]: the code's `max(-1.0, min(1.0, avg_score))`. -/
def clampScore (x : ℚ) : ℚ := pyMax (-1) (pyMin 1 x)

lemma clampScore_bounds (x : ℚ) : -1 ≤ clampScore x ∧ clampScore x ≤ 1 := by
  unfold clampScore pyMax pyMin
  split_ifs <;> constructor <;> linarith

/-- Votes appended by the RSI block (gated by `rsi is not None`). -/
def rsiScores (ind : Indicators) : List ℚ :=
  match ind.RSI with
  | some rsi =>
      [if rsi < 30 then 7/10
       else if 70 < rsi then -(7/10)
       else if rsi < 50 then 1/5
       else -(1/5)]
  | none => []

/-- Votes appended by the MACD-vs-signal block (gated by two
`is not None` checks). -/
def macdScores (ind : Indicators) : List ℚ :=
  match ind.MACD, ind.MACD_signal with
  | some macd, some ms => [if ms < macd then 1/2 else -(3/10)]
  | _, _ => []

/-- Votes appended by the MACD histogram block. -/
def macdDiffScores (ind : Indicators) : List ℚ :=
  match ind.MACD_diff with
  | some md => [if 0 < md then 3/10 else -(3/10)]
  | none => []

/-- Votes appended by the moving-average block
(`if all([ma_20, ma_50, current_price])`: truthiness gate). -/
def maScores (ind : Indicators) : List ℚ :=
  match ind.MA_20, ind.MA_50, ind.current_price with
  | some m20, some m50, some cp =>
      if m20 ≠ 0 ∧ m50 ≠ 0 ∧ cp ≠ 0 then
        [if m20 < cp ∧ m50 < m20 then 3/5
         else if cp < m20 ∧ m20 < m50 then -(3/5)
         else 0]
      else []
  | _, _, _ => []

/-- Votes appended by the MA_200 block (`if ma_200 and current_price`:
truthiness gate). -/
def ma200Scores (ind : Indicators) : List ℚ :=
  match ind.MA_200, ind.current_price with
  | some m200, some cp =>
      if m200 ≠ 0 ∧ cp ≠ 0 then [if m200 < cp then 1/5 else -(1/5)] else []
  | _, _ => []

/-- Votes appended by the Bollinger-band block
(`if all([bb_high, bb_low, bb_mid, current_price])`: truthiness gate). -/
def bbScores (ind : Indicators) : List ℚ :=
  match ind.BB_high, ind.BB_low, ind.BB_mid, ind.current_price with
  | some bh, some bl, some bm, some cp =>
      if bh ≠ 0 ∧ bl ≠ 0 ∧ bm ≠ 0 ∧ cp ≠ 0 then
        [if cp ≤ bl then 1/2 else if bh ≤ cp then -(1/2) else 0]
      else []
  | _, _, _, _ => []

/-- Votes appended by the volume block (`if volume and volume_sma`:
truthiness gate; no vote inside the [0.5, 1.5]·SMA band). -/
def volumeScores (ind : Indicators) : List ℚ :=
  match ind.volume, ind.volume_sma with
  | some v, some vs =>
      if v ≠ 0 ∧ vs ≠ 0 then
        if vs * (3/2) < v then [1/5]
        else if v < vs * (1/2) then [-(1/10)]
        else []
      else []
  | _, _ => []

/-- The list `scores` accumulated by `_calculate_technical_score`, in the
order the code appends votes. -/
def technicalVotes (ind : Indicators) : List ℚ :=
  rsiScores ind ++ macdScores ind ++ macdDiffScores ind ++ maScores ind ++
    ma200Scores ind ++ bbScores ind ++ volumeScores ind

/-- `_calculate_technical_score` on a non-empty indicator dictionary:
average the accumulated votes and clamp, or return 0 when no vote was
cast. -/
def calculateTechnicalScore (ind : Indicators) : ℚ :=
  if technicalVotes ind = [] then 0
  else clampScore ((technicalVotes ind).sum / ((technicalVotes ind).length : ℚ))

/-- `_calculate_technical_score` including the `if not indicators:
return 0.0` early exit for a missing/empty indicator dictionary
(`none` here embeds the empty dict `{}`). -/
def technicalScoreFull (ind : Option Indicators) : ℚ :=
  match ind with
  | none => 0
  | some i => calculateTechnicalScore i

/-! ### Claim-side rendering of the vote table

`specVoteTableScore` follows the claim's words: a vote group is cast
exactly when its required fields are *present* (supplied, i.e. not
`None`), with the fixed vote table.  It differs from the code when a
gating field is present but equal to zero. -/

/-- Modelled from the claim's words: the vote list with presence
meaning a supplied (non-`None`) field for every group. -/
def specVoteTableVotes (ind : Indicators) : List ℚ :=
    (match ind.RSI with
     | some rsi =>
        [if rsi < 30 then 7/10
         else if 70 < rsi then -(7/10)
         else if rsi < 50 then 1/5
         else -(1/5)]
     | none => []) ++
    (match ind.MACD, ind.MACD_signal with
     | some macd, some ms => [if ms < macd then 1/2 else -(3/10)]
     | _, _ => []) ++
    (match ind.MACD_diff with
     | some md => [if 0 < md then 3/10 else -(3/10)]
     | none => []) ++
    (match ind.MA_20, ind.MA_50, ind.current_price with
     | some m20, some m50, some cp =>
        [if m20 < cp ∧ m50 < m20 then 3/5
         else if cp < m20 ∧ m20 < m50 then -(3/5)
         else 0]
     | _, _, _ => []) ++
    (match ind.MA_200, ind.current_price with
     | some m200, some cp => [if m200 < cp then 1/5 else -(1/5)]
     | _, _ => []) ++
    (match ind.BB_high, ind.BB_low, ind.BB_mid, ind.current_price with
     | some bh, some bl, some _, some cp =>
        [if cp ≤ bl then 1/2 else if bh ≤ cp then -(1/2) else 0]
     | _, _, _, _ => []) ++
    (match ind.volume, ind.volume_sma with
     | some v, some vs =>
        if vs * (3/2) < v then [1/5]
        else if v < vs * (1/2) then [-(1/10)]
        else []
     | _, _ => [])

/-- Modelled from the claim's words: mean of the table's votes, clamped
to [-1, 1], zero when no votes are cast. -/
def specVoteTableScore (ind : Indicators) : ℚ :=
  if specVoteTableVotes ind = [] then 0
  else clampScore ((specVoteTableVotes ind).sum / ((specVoteTableVotes ind).length : ℚ))

/-! ### Amended compositional rendering

One optional vote per group, gathered with `reduceOption`; the gates of
the moving-average, MA_200, Bollinger-band and volume groups require the
fields to be present *and nonzero* (Python truthiness), the RSI and MACD
gates only require presence. -/

/-- RSI group vote (cast when RSI is supplied). -/
def rsiVote (ind : Indicators) : Option ℚ :=
  ind.RSI.map fun rsi =>
    if rsi < 30 then 7/10
    else if 70 < rsi then -(7/10)
    else if rsi < 50 then 1/5
    else -(1/5)

/-- MACD-vs-signal group vote (cast when both are supplied). -/
def macdVote (ind : Indicators) : Option ℚ :=
  match ind.MACD, ind.MACD_signal with
  | some macd, some ms => some (if ms < macd then 1/2 else -(3/10))
  | _, _ => none

/-- MACD histogram group vote (cast when MACD_diff is supplied). -/
def macdDiffVote (ind : Indicators) : Option ℚ :=
  ind.MACD_diff.map fun md => if 0 < md then 3/10 else -(3/10)

/-- Moving-average alignment group vote (cast when MA_20, MA_50 and the
price are all truthy). -/
def maVote (ind : Indicators) : Option ℚ :=
  match ind.MA_20, ind.MA_50, ind.current_price with
  | some m20, some m50, some cp =>
      if m20 ≠ 0 ∧ m50 ≠ 0 ∧ cp ≠ 0 then
        some (if m20 < cp ∧ m50 < m20 then 3/5
              else if cp < m20 ∧ m20 < m50 then -(3/5)
              else 0)
      else none
  | _, _, _ => none

/-- Long-term trend group vote (cast when MA_200 and the price are
truthy). -/
def ma200Vote (ind : Indicators) : Option ℚ :=
  match ind.MA_200, ind.current_price with
  | some m200, some cp =>
      if m200 ≠ 0 ∧ cp ≠ 0 then some (if m200 < cp then 1/5 else -(1/5))
      else none
  | _, _ => none

/-- Bollinger-band group vote (cast when all three bands and the price
are truthy). -/
def bbVote (ind : Indicators) : Option ℚ :=
  match ind.BB_high, ind.BB_low, ind.BB_mid, ind.current_price with
  | some bh, some bl, some bm, some cp =>
      if bh ≠ 0 ∧ bl ≠ 0 ∧ bm ≠ 0 ∧ cp ≠ 0 then
        some (if cp ≤ bl then 1/2 else if bh ≤ cp then -(1/2) else 0)
      else none
  | _, _, _, _ => none

/-- Volume group vote (cast when volume and its SMA are truthy and the
volume is outside the [0.5, 1.5]·SMA band). -/
def volumeVote (ind : Indicators) : Option ℚ :=
  match ind.volume, ind.volume_sma with
  | some v, some vs =>
      if v ≠ 0 ∧ vs ≠ 0 then
        if vs * (3/2) < v then some (1/5)
        else if v < vs * (1/2) then some (-(1/10))
        else none
      else none
  | _, _ => none

/-- The cast votes of the amended claim: one optional vote per group. -/
def amendedVotes (ind : Indicators) : List ℚ :=
  [rsiVote ind, macdVote ind, macdDiffVote ind, maVote ind,
   ma200Vote ind, bbVote ind, volumeVote ind].reduceOption

/-- The amended claim's description of the scorer: the mean of the cast
group votes, clamped to [-1, 1], zero when no vote is cast. -/
def amendedTechnicalScore (ind : Indicators) : ℚ :=
  if amendedVotes ind = [] then 0
  else clampScore ((amendedVotes ind).sum / ((amendedVotes ind).length : ℚ))

/-- The indicator set refuting claim C1 as literally stated: MA_200 is
supplied but equal to zero, the current price is supplied. -/
def c1Indicators : Indicators :=
  { Indicators.empty with MA_200 := some 0, current_price := some 100 }

/-! ### Lemmas relating the accumulated score list to the per-group votes -/

lemma reduceOption_cons_toList (o : Option ℚ) (l : List (Option ℚ)) :
    (o :: l).reduceOption = o.toList ++ l.reduceOption := by
  cases o <;> simp [List.reduceOption]

lemma rsiScores_eq (ind : Indicators) : rsiScores ind = (rsiVote ind).toList := by
  cases h : ind.RSI <;> simp [rsiScores, rsiVote, h]

lemma macdScores_eq (ind : Indicators) : macdScores ind = (macdVote ind).toList := by
  cases h1 : ind.MACD <;> cases h2 : ind.MACD_signal <;>
    simp [macdScores, macdVote, h1, h2]

lemma macdDiffScores_eq (ind : Indicators) :
    macdDiffScores ind = (macdDiffVote ind).toList := by
  cases h : ind.MACD_diff <;> simp [macdDiffScores, macdDiffVote, h]

lemma maScores_eq (ind : Indicators) : maScores ind = (maVote ind).toList := by
  cases h1 : ind.MA_20 <;> cases h2 : ind.MA_50 <;> cases h3 : ind.current_price <;>
    simp only [maScores, maVote, h1, h2, h3, Option.toList] <;>
    first
    | rfl
    | (split <;> simp)

lemma ma200Scores_eq (ind : Indicators) : ma200Scores ind = (ma200Vote ind).toList := by
  cases h1 : ind.MA_200 <;> cases h2 : ind.current_price <;>
    simp only [ma200Scores, ma200Vote, h1, h2, Option.toList] <;>
    first
    | rfl
    | (split <;> simp)

lemma bbScores_eq (ind : Indicators) : bbScores ind = (bbVote ind).toList := by
  cases h1 : ind.BB_high <;> cases h2 : ind.BB_low <;> cases h3 : ind.BB_mid <;>
    cases h4 : ind.current_price <;>
    simp only [bbScores, bbVote, h1, h2, h3, h4, Option.toList] <;>
    first
    | rfl
    | (split <;> simp)

lemma volumeScores_eq (ind : Indicators) : volumeScores ind = (volumeVote ind).toList := by
  cases h1 : ind.volume <;> cases h2 : ind.volume_sma <;>
    simp only [volumeScores, volumeVote, h1, h2, Option.toList] <;>
    first
    | rfl
    | (split_ifs <;> simp)

lemma technicalVotes_eq_amendedVotes (ind : Indicators) :
    technicalVotes ind = amendedVotes ind := by
  simp [technicalVotes, amendedVotes, reduceOption_cons_toList, rsiScores_eq,
    macdScores_eq, macdDiffScores_eq, maScores_eq, ma200Scores_eq, bbScores_eq,
    volumeScores_eq, List.reduceOption_nil]

lemma calculateTechnicalScore_congr {a b : Indicators}
    (h : technicalVotes a = technicalVotes b) :
    calculateTechnicalScore a = calculateTechnicalScore b := by
  simp only [calculateTechnicalScore, h]

lemma technicalVotes_congr {a b : Indicators}
    (h1 : rsiScores a = rsiScores b) (h2 : macdScores a = macdScores b)
    (h3 : macdDiffScores a = macdDiffScores b) (h4 : maScores a = maScores b)
    (h5 : ma200Scores a = ma200Scores b) (h6 : bbScores a = bbScores b)
    (h7 : volumeScores a = volumeScores b) :
    technicalVotes a = technicalVotes b := by
  simp only [technicalVotes, h1, h2, h3, h4, h5, h6, h7]

/-- C1 (counterexample): on an indicator set that supplies MA_200 = 0 and
a current price of 100, the code casts no long-term-trend vote and
returns 0, while the claim's vote table (a vote group is cast whenever
its required fields are present) yields the single vote +0.2. -/
theorem c1_vote_table_counterexample :
    calculateTechnicalScore c1Indicators = 0 ∧
    specVoteTableScore c1Indicators = 1/5 ∧ (0 : ℚ) ≠ 1/5 := by
  refine ⟨?_, ?_, by norm_num⟩
  · norm_num [calculateTechnicalScore, technicalVotes, rsiScores, macdScores,
      macdDiffScores, maScores, ma200Scores, bbScores, volumeScores,
      c1Indicators, Indicators.empty]
  · norm_num [specVoteTableScore, specVoteTableVotes, c1Indicators,
      Indicators.empty, clampScore, pyMax, pyMin]

/-- C1 (amended): for every indicator set, `_calculate_technical_score`
returns the clamped arithmetic mean of exactly the votes of the fixed
table — +0.7, -0.7 or ±0.2 for RSI, +0.5 or -0.3 for MACD vs signal,
±0.3 for the MACD histogram, ±0.6 or 0 for the moving-average
alignment, ±0.2 for price vs MA_200, ±0.5 or 0 for the Bollinger bands,
+0.2 or -0.1 for volume —
where the RSI and MACD groups vote when their fields are supplied, while
the moving-average, MA_200, Bollinger-band and volume groups vote only
when their required fields are supplied *and nonzero* (Python
truthiness); absent groups are excluded from the average, the mean is
clamped to [-1, 1], and the result is 0 when no votes are cast. -/
theorem c1_vote_table_amended (ind : Indicators) :
    calculateTechnicalScore ind = amendedTechnicalScore ind ∧
    -1 ≤ calculateTechnicalScore ind ∧ calculateTechnicalScore ind ≤ 1 := by
  refine ⟨?_, ?_⟩
  · simp only [calculateTechnicalScore, amendedTechnicalScore,
      technicalVotes_eq_amendedVotes]
  · simp only [calculateTechnicalScore]
    split
    · norm_num
    · exact clampScore_bounds _

/-- C10: the moving-average, MA_200, Bollinger-band and volume fields
are gated by Python truthiness, so a field supplied as exactly 0 behaves
like an absent field: substituting `some 0` for `none` in any of these
eight fields leaves the technical score unchanged (the group casts no
vote). -/
theorem c10_truthiness_zero_is_absent (ind : Indicators) :
    calculateTechnicalScore { ind with MA_20 := some 0 }
      = calculateTechnicalScore { ind with MA_20 := none } ∧
    calculateTechnicalScore { ind with MA_50 := some 0 }
      = calculateTechnicalScore { ind with MA_50 := none } ∧
    calculateTechnicalScore { ind with MA_200 := some 0 }
      = calculateTechnicalScore { ind with MA_200 := none } ∧
    calculateTechnicalScore { ind with BB_high := some 0 }
      = calculateTechnicalScore { ind with BB_high := none } ∧
    calculateTechnicalScore { ind with BB_low := some 0 }
      = calculateTechnicalScore { ind with BB_low := none } ∧
    calculateTechnicalScore { ind with BB_mid := some 0 }
      = calculateTechnicalScore { ind with BB_mid := none } ∧
    calculateTechnicalScore { ind with volume := some 0 }
      = calculateTechnicalScore { ind with volume := none } ∧
    calculateTechnicalScore { ind with volume_sma := some 0 }
      = calculateTechnicalScore { ind with volume_sma := none } := by
  refine ⟨?_, ?_, ?_, ?_, ?_, ?_, ?_, ?_⟩
  · refine calculateTechnicalScore_congr
      (technicalVotes_congr rfl rfl rfl ?_ rfl rfl rfl)
    cases h2 : ind.MA_50 <;> cases h3 : ind.current_price <;>
      simp [maScores, h2, h3]
  · refine calculateTechnicalScore_congr
      (technicalVotes_congr rfl rfl rfl ?_ rfl rfl rfl)
    cases h1 : ind.MA_20 <;> cases h3 : ind.current_price <;>
      simp [maScores, h1, h3]
  · refine calculateTechnicalScore_congr
      (technicalVotes_congr rfl rfl rfl rfl ?_ rfl rfl)
    cases h2 : ind.current_price <;> simp [ma200Scores, h2]
  · refine calculateTechnicalScore_congr
      (technicalVotes_congr rfl rfl rfl rfl rfl ?_ rfl)
    cases h2 : ind.BB_low <;> cases h3 : ind.BB_mid <;>
      cases h4 : ind.current_price <;> simp [bbScores, h2, h3, h4]
  · refine calculateTechnicalScore_congr
      (technicalVotes_congr rfl rfl rfl rfl rfl ?_ rfl)
    cases h1 : ind.BB_high <;> cases h3 : ind.BB_mid <;>
      cases h4 : ind.current_price <;> simp [bbScores, h1, h3, h4]
  · refine calculateTechnicalScore_congr
      (technicalVotes_congr rfl rfl rfl rfl rfl ?_ rfl)
    cases h1 : ind.BB_high <;> cases h2 : ind.BB_low <;>
      cases h4 : ind.current_price <;> simp [bbScores, h1, h2, h4]
  · refine calculateTechnicalScore_congr
      (technicalVotes_congr rfl rfl rfl rfl rfl rfl ?_)
    cases h2 : ind.volume_sma <;> simp [volumeScores, h2]
  · refine calculateTechnicalScore_congr
      (technicalVotes_congr rfl rfl rfl rfl rfl rfl ?_)
    cases h1 : ind.volume <;> simp [volumeScores, h1]

/-! ## Signal Generator (src/strategy/trading_strategy.py) -/

/-- The count of available indicators used by
`_calculate_technical_confidence` (`is not None` checks on six fields). -/
def availableIndicators (ind : Indicators) : ℕ :=
  (if ind.RSI.isSome then 1 else 0) + (if ind.MACD.isSome then 1 else 0) +
  (if ind.MA_20.isSome then 1 else 0) + (if ind.MA_50.isSome then 1 else 0) +
  (if ind.MA_200.isSome then 1 else 0) + (if ind.BB_high.isSome then 1 else 0)

/-- `_calculate_technical_confidence`: 0.3 for a missing/empty indicator
dictionary, otherwise `min(1.0, 0.4 + available/10)`. -/
def technicalConfidence (ind : Option Indicators) : ℚ :=
  match ind with
  | none => 3/10
  | some i => pyMin 1 (2/5 + (availableIndicators i : ℚ) / 10)

/-- The configuration stored by `SentimentTradingStrategy`. -/
structure SentimentTradingStrategy where
  sentiment_weight : ℚ
  technical_weight : ℚ
  buy_threshold : ℚ
  sell_threshold : ℚ
deriving DecidableEq

/-- `SentimentTradingStrategy.__init__`: stores the four arguments, then
divides both weights by their sum when that sum is positive (`if
total_weight > 0`). -/
def initStrategy (sw tw bt st : ℚ) : SentimentTradingStrategy :=
  if 0 < sw + tw then ⟨sw / (sw + tw), tw / (sw + tw), bt, st⟩
  else ⟨sw, tw, bt, st⟩

inductive SignalType
  | buy
  | sell
  | hold
deriving DecidableEq

/-- The fields of the signal dictionary consumed by the backtest. -/
structure Signal where
  signal_type : SignalType
  confidence : ℚ
  final_score : ℚ
deriving DecidableEq

/-- `generate_signal`, restricted to the fields the backtest consumes:
the sentiment score and confidence come from the sentiment data, the
technical score and confidence from the indicator set, the two are
fused with the stored weights, and the thresholds classify the result
(strict inequalities; everything between them is `hold`). -/
def generateSignal (strat : SentimentTradingStrategy)
    (sentScore sentConf : ℚ) (ind : Option Indicators) : Signal :=
  let fs := strat.sentiment_weight * sentScore
    + strat.technical_weight * technicalScoreFull ind
  let conf := strat.sentiment_weight * sentConf
    + strat.technical_weight * technicalConfidence ind
  ⟨if strat.buy_threshold < fs then SignalType.buy
    else if fs < strat.sell_threshold then SignalType.sell
    else SignalType.hold, conf, fs⟩

/-- `calculate_position_size` with the default risk per trade (2 percent)
and no volatility argument, exactly as the backtesting engine invokes
it: base = capital·0.02, multiplier = clamp(0.5 + confidence·1.5) to
[0.5, 2]. -/
def calculatePositionSize (capital conf : ℚ) : ℚ :=
  capital * (1/50) * pyMin 2 (pyMax (1/2) (1/2 + conf * (3/2)))

/-- Python `int()` truncation (toward zero) of a float, on rationals. -/
def pyInt (q : ℚ) : ℤ := if 0 ≤ q then ⌊q⌋ else ⌈q⌉

/-- C5 (counterexample): with both constructor arguments equal to 0 the
normalization branch is skipped and the stored weights sum to 0, not 1,
refuting the claim for that argument pair. -/
theorem c5_weights_counterexample :
    (initStrategy 0 0 (3/5) (-(3/5))).sentiment_weight
      + (initStrategy 0 0 (3/5) (-(3/5))).technical_weight = 0 ∧ (0 : ℚ) ≠ 1 := by
  norm_num [initStrategy]

/-- C5 (amended): for every pair of constructor arguments whose sum is
positive, the stored weights satisfy sentiment_weight +
technical_weight = 1 after construction. -/
theorem c5_weights_normalized (sw tw bt st : ℚ) (h : 0 < sw + tw) :
    (initStrategy sw tw bt st).sentiment_weight
      + (initStrategy sw tw bt st).technical_weight = 1 := by
  simp only [initStrategy, if_pos h]
  field_simp

/-- C5 (witness): the default constructor arguments 0.6 and 0.4. -/
theorem c5_weights_normalized_witness :
    0 < (3 : ℚ)/5 + 2/5 ∧
    (initStrategy (3/5) (2/5) (3/5) (-(3/5))).sentiment_weight
      + (initStrategy (3/5) (2/5) (3/5) (-(3/5))).technical_weight = 1 :=
  ⟨by norm_num, c5_weights_normalized (3/5) (2/5) (3/5) (-(3/5)) (by norm_num)⟩

/-! ## Sentiment Aggregator (src/sentiment/gpt_analyzer.py, aggregate_sentiment) -/

/-- One per-text sentiment analysis result (the fields
`aggregate_sentiment` reads, with their dict defaults already applied). -/
structure SentimentResult where
  sentiment : String
  score : ℚ
  confidence : ℚ
deriving DecidableEq

/-- The aggregate snapshot returned by `aggregate_sentiment`, restricted
to the fields shared by both return branches (the two derived
percentage fields of the non-empty branch are straightforward ratios of
the counts below and are not consumed by the claims). -/
structure SentimentSnapshot where
  overall_sentiment : String
  average_score : ℚ
  weighted_score : ℚ
  confidence : ℚ
  positive_count : ℕ
  negative_count : ℕ
  neutral_count : ℕ
  total_count : ℕ
deriving DecidableEq

/-- The loop's `total_confidence` accumulator. -/
def totalConfidence (rs : List SentimentResult) : ℚ :=
  (rs.map (fun r => r.confidence)).sum

/-- The loop's `weighted_sum` accumulator (score times confidence). -/
def weightedSum (rs : List SentimentResult) : ℚ :=
  (rs.map (fun r => r.score * r.confidence)).sum

/-- The loop's per-label tally (`sentiment.lower()` compared against the
three fixed keys). -/
def countLabel (rs : List SentimentResult) (lab : String) : ℕ :=
  (rs.filter (fun r => r.sentiment.toLower = lab)).length

/-- The local `average_score`: unweighted mean of the scores. -/
def averageScore (rs : List SentimentResult) : ℚ :=
  (rs.map (fun r => r.score)).sum / (rs.length : ℚ)

/-- The local `weighted_score`: `weighted_sum / total_confidence if
total_confidence > 0 else average_score`. -/
def weightedScore (rs : List SentimentResult) : ℚ :=
  if 0 < totalConfidence rs then weightedSum rs / totalConfidence rs
  else averageScore rs

/-- The `overall_sentiment` classification chain with the 0.3 dead zone
(strict thresholds on both sides). -/
def classifySentiment (w : ℚ) : String :=
  if 3/10 < w then "bullish"
  else if w < -(3/10) then "bearish"
  else "neutral"

/-- `aggregate_sentiment`: the all-zero neutral snapshot on empty input;
otherwise the unweighted mean, the confidence-weighted mean with its
fallback, the mean confidence, the exact label tallies and the dead-zone
classification. -/
def aggregateSentiment (rs : List SentimentResult) : SentimentSnapshot :=
  if rs = [] then ⟨"neutral", 0, 0, 0, 0, 0, 0, 0⟩
  else
    ⟨classifySentiment (weightedScore rs),
     averageScore rs,
     weightedScore rs,
     totalConfidence rs / (rs.length : ℚ),
     countLabel rs "positive", countLabel rs "negative", countLabel rs "neutral",
     rs.length⟩

lemma classifySentiment_spec (w : ℚ) :
    (classifySentiment w = "bullish" ↔ 3/10 < w) ∧
    (classifySentiment w = "bearish" ↔ w < -(3/10)) ∧
    (classifySentiment w = "neutral" ↔ -(3/10) ≤ w ∧ w ≤ 3/10) := by
  unfold classifySentiment
  by_cases h1 : 3/10 < w
  · have h2 : ¬ w < -(3/10) := by linarith
    simp only [if_pos h1]
    refine ⟨by simp [h1], by simp [h2], ?_⟩
    simp only [show ("bullish" : String) ≠ "neutral" by simp, false_iff]
    intro hc
    linarith [hc.2]
  · by_cases h2 : w < -(3/10)
    · simp only [if_neg h1, if_pos h2]
      refine ⟨by simp [h1], by simp [h2], ?_⟩
      simp only [show ("bearish" : String) ≠ "neutral" by simp, false_iff]
      intro hc
      linarith [hc.1]
    · simp only [if_neg h1, if_neg h2]
      refine ⟨by simp [h1], by simp [h2], ?_⟩
      simp only [true_iff]
      constructor <;> linarith

/-- C6: for every non-empty list of sentiment observations (confidences
in their declared nonnegative range), `aggregate_sentiment` computes
average_score as the unweighted mean, weighted_score as
sum(score·confidence)/sum(confidence) with fallback to average_score
exactly when the total confidence is 0, and classifies
overall_sentiment as bullish iff weighted_score > 0.3, bearish iff
weighted_score < -0.3, and neutral iff it lies in the closed dead zone
[-0.3, 0.3] (so at weighted_score exactly 0.3 the result is neutral). -/
theorem c6_aggregate_weighted_score (rs : List SentimentResult) (hne : rs ≠ [])
    (hconf : ∀ r ∈ rs, 0 ≤ r.confidence) :
    (aggregateSentiment rs).average_score
        = (rs.map (fun r => r.score)).sum / (rs.length : ℚ) ∧
    (totalConfidence rs = 0 →
      (aggregateSentiment rs).weighted_score = (aggregateSentiment rs).average_score) ∧
    (totalConfidence rs ≠ 0 →
      (aggregateSentiment rs).weighted_score = weightedSum rs / totalConfidence rs) ∧
    ((aggregateSentiment rs).overall_sentiment = "bullish"
        ↔ 3/10 < (aggregateSentiment rs).weighted_score) ∧
    ((aggregateSentiment rs).overall_sentiment = "bearish"
        ↔ (aggregateSentiment rs).weighted_score < -(3/10)) ∧
    ((aggregateSentiment rs).overall_sentiment = "neutral"
        ↔ -(3/10) ≤ (aggregateSentiment rs).weighted_score
          ∧ (aggregateSentiment rs).weighted_score ≤ 3/10) := by
  have htc : 0 ≤ totalConfidence rs := by
    refine List.sum_nonneg ?_
    intro x hx
    rcases List.mem_map.mp hx with ⟨r, hr, rfl⟩
    exact hconf r hr
  simp only [aggregateSentiment, if_neg hne]
  refine ⟨rfl, ?_, ?_,
    (classifySentiment_spec (weightedScore rs)).1,
    (classifySentiment_spec (weightedScore rs)).2.1,
    (classifySentiment_spec (weightedScore rs)).2.2⟩
  · intro h0
    simp [weightedScore, h0, averageScore]
  · intro h0
    have hpos : 0 < totalConfidence rs := lt_of_le_of_ne htc (Ne.symm h0)
    simp [weightedScore, hpos]

/-- C6 (witness): a single observation with score exactly 0.3 and
confidence 1: the weighted score is exactly 0.3 and the classification
is neutral (the bullish boundary is exclusive). -/
theorem c6_aggregate_weighted_score_witness :
    (aggregateSentiment [⟨"positive", 3/10, 1⟩]).weighted_score = 3/10 ∧
    (aggregateSentiment [⟨"positive", 3/10, 1⟩]).overall_sentiment = "neutral" := by
  have h := c6_aggregate_weighted_score [⟨"positive", 3/10, 1⟩] (by simp)
    (by intro r hr; simp at hr; subst hr; norm_num)
  have hws : (aggregateSentiment [⟨"positive", 3/10, 1⟩]).weighted_score = 3/10 := by
    rw [h.2.2.1 (by norm_num [totalConfidence])]
    norm_num [weightedSum, totalConfidence]
  exact ⟨hws, (h.2.2.2.2.2).mpr (by rw [hws]; norm_num)⟩

/-! ## Budget Gateway (src/sentiment/rate_limiter.py, RateLimiter)

The limiter is modelled within one calendar day: `daily_requests[today]`
and `daily_costs[today]` become plain counters (the defaultdict zero is
the initial value), the day-rollover pruning and the JSON persistence
are outside the modelled window, and wall-clock instants are rationals
(seconds). -/

/-- The mutable state (and configuration) of a `RateLimiter` instance.
`costPer1kTokens` stores `cost_per_1k_tokens / 1000` exactly as
`__init__` does. -/
structure RateLimiter where
  maxRequestsPerMinute : ℕ
  maxRequestsPerDay : ℕ
  maxDailyCost : ℚ
  costPer1kTokens : ℚ
  requestsTimestamps : List ℚ
  dailyRequests : ℕ
  dailyCost : ℚ
deriving DecidableEq

/-- `RateLimiter.__init__` (with no saved state file to load). -/
def RateLimiter.init (mpm mpd : ℕ) (mdc cpk : ℚ) : RateLimiter :=
  ⟨mpm, mpd, mdc, cpk / 1000, [], 0, 0⟩

/-- `_clean_old_timestamps`: drop timestamps at or before `now - 60`. -/
def cleanOldTimestamps (now : ℚ) (ts : List ℚ) : List ℚ :=
  ts.filter (fun t => now - 60 < t)

/-- The three refusal reasons, in the order the code checks them. -/
inductive RefusalReason
  | perMinute
  | perDay
  | perDayCost
deriving DecidableEq

/-- `check_rate_limit`: clean the sliding window, then check the
per-minute ceiling, the per-day request ceiling and the per-day cost
ceiling in that order; the first violated ceiling is reported. -/
def checkRateLimit (l : RateLimiter) (now : ℚ) : Bool × Option RefusalReason :=
  if l.maxRequestsPerMinute ≤ (cleanOldTimestamps now l.requestsTimestamps).length then
    (false, some RefusalReason.perMinute)
  else if l.maxRequestsPerDay ≤ l.dailyRequests then
    (false, some RefusalReason.perDay)
  else if l.maxDailyCost ≤ l.dailyCost then
    (false, some RefusalReason.perDayCost)
  else
    (true, none)

/-- The cost estimate of `record_request`: 70 percent of the tokens are
priced as input at $0.15 per million, 30 percent as output at $0.60 per
million, with Python `int()` truncation of both token shares.  The
configured `cost_per_1k_tokens` does not appear in this formula. -/
def estimatedCost (tokens : ℕ) : ℚ :=
  ((7 * tokens / 10 : ℕ) : ℚ) / 1000000 * (15/100)
    + ((3 * tokens / 10 : ℕ) : ℚ) / 1000000 * (60/100)

/-- `record_request`: append the current instant to the sliding window,
increment today's request counter, and add the estimated cost to
today's cost. -/
def recordRequest (l : RateLimiter) (now : ℚ) (tokens : ℕ) : RateLimiter :=
  { l with
    requestsTimestamps := l.requestsTimestamps ++ [now],
    dailyRequests := l.dailyRequests + 1,
    dailyCost := l.dailyCost + estimatedCost tokens }

/-- A sequence of recorded requests at the given instants
(`for t in times: limiter.record_request(tokens)` at instant `t`). -/
def recordMany (l : RateLimiter) (times : List ℚ) (tokens : ℕ) : RateLimiter :=
  match times with
  | [] => l
  | t :: ts => recordMany (recordRequest l t tokens) ts tokens

lemma recordMany_fields (times : List ℚ) (l : RateLimiter) (tokens : ℕ) :
    (recordMany l times tokens).requestsTimestamps
        = l.requestsTimestamps ++ times ∧
    (recordMany l times tokens).dailyRequests
        = l.dailyRequests + times.length ∧
    (recordMany l times tokens).maxRequestsPerMinute = l.maxRequestsPerMinute ∧
    (recordMany l times tokens).maxRequestsPerDay = l.maxRequestsPerDay ∧
    (recordMany l times tokens).maxDailyCost = l.maxDailyCost := by
  induction times generalizing l with
  | nil => simp [recordMany]
  | cons t ts ih =>
      have h := ih (recordRequest l t tokens)
      simp only [recordMany]
      refine ⟨?_, ?_, ?_, ?_, ?_⟩
      · rw [h.1]
        simp [recordRequest]
      · rw [h.2.1]
        simp only [recordRequest, List.length_cons]
        omega
      · rw [h.2.2.1]
        rfl
      · rw [h.2.2.2.1]
        rfl
      · rw [h.2.2.2.2]
        rfl

/-- C7: the Budget Gateway's admission rule.  Starting from a fresh
limiter, after exactly `max_requests_per_minute` recorded calls whose
instants all lie inside the 60-second window ending at `now`, the next
check refuses with the per-minute reason; for any limiter state, a
check passes once the cleaned window is below the per-minute ceiling
and both daily ceilings are unmet — in particular admission resumes
once the oldest recorded instant ages out of the window — and the three
ceilings are tested in the order per-minute, per-day requests, per-day
cost, the first violated one determining the reason. -/
theorem c7_rate_limit_window (mpm mpd : ℕ) (mdc cpk : ℚ)
    (times : List ℚ) (now : ℚ) (tokens : ℕ) (l : RateLimiter) :
    (times.length = mpm → (∀ t ∈ times, now - 60 < t) →
      checkRateLimit (recordMany (RateLimiter.init mpm mpd mdc cpk) times tokens) now
        = (false, some RefusalReason.perMinute)) ∧
    ((cleanOldTimestamps now l.requestsTimestamps).length < l.maxRequestsPerMinute →
      l.dailyRequests < l.maxRequestsPerDay →
      l.dailyCost < l.maxDailyCost →
      checkRateLimit l now = (true, none)) ∧
    (l.maxRequestsPerMinute ≤ (cleanOldTimestamps now l.requestsTimestamps).length →
      checkRateLimit l now = (false, some RefusalReason.perMinute)) ∧
    ((cleanOldTimestamps now l.requestsTimestamps).length < l.maxRequestsPerMinute →
      l.maxRequestsPerDay ≤ l.dailyRequests →
      checkRateLimit l now = (false, some RefusalReason.perDay)) ∧
    ((cleanOldTimestamps now l.requestsTimestamps).length < l.maxRequestsPerMinute →
      l.dailyRequests < l.maxRequestsPerDay →
      l.maxDailyCost ≤ l.dailyCost →
      checkRateLimit l now = (false, some RefusalReason.perDayCost)) := by
  refine ⟨?_, ?_, ?_, ?_, ?_⟩
  · intro hlen hin
    have hf := recordMany_fields times (RateLimiter.init mpm mpd mdc cpk) tokens
    have hts : (recordMany (RateLimiter.init mpm mpd mdc cpk) times tokens).requestsTimestamps
        = times := by
      simpa [RateLimiter.init] using hf.1
    have hclean : cleanOldTimestamps now times = times :=
      List.filter_eq_self.mpr (fun t ht => decide_eq_true (hin t ht))
    have hmpm : (recordMany (RateLimiter.init mpm mpd mdc cpk) times tokens).maxRequestsPerMinute
        = mpm := by
      simpa [RateLimiter.init] using hf.2.2.1
    simp [checkRateLimit, hts, hclean, hlen, hmpm]
  · intro h1 h2 h3
    simp [checkRateLimit, not_le_of_lt h1, not_le_of_lt h2, not_le_of_lt h3]
  · intro h1
    simp [checkRateLimit, h1]
  · intro h1 h2
    simp [checkRateLimit, not_le_of_lt h1, h2]
  · intro h1 h2 h3
    simp [checkRateLimit, not_le_of_lt h1, not_le_of_lt h2, h3]

/-- C7 (witness): a limiter allowing 2 requests per minute, after
recording calls at instants 10 and 20: the check at instant 30 refuses
with the per-minute reason, and the check at instant 75 (the call at 10
has aged out of the window) passes. -/
theorem c7_rate_limit_window_witness :
    checkRateLimit (recordMany (RateLimiter.init 2 100 10 (15/100)) [10, 20] 500) 30
      = (false, some RefusalReason.perMinute) ∧
    checkRateLimit (recordMany (RateLimiter.init 2 100 10 (15/100)) [10, 20] 500) 75
      = (true, none) := by
  constructor
  · exact (c7_rate_limit_window 2 100 10 (15/100) [10, 20] 30 500
      (recordMany (RateLimiter.init 2 100 10 (15/100)) [10, 20] 500)).1
      rfl (by intro t ht; simp at ht; rcases ht with rfl | rfl <;> norm_num)
  · refine (c7_rate_limit_window 2 100 10 (15/100) [10, 20] 75 500
      (recordMany (RateLimiter.init 2 100 10 (15/100)) [10, 20] 500)).2.1 ?_ ?_ ?_
    · norm_num [recordMany, recordRequest, RateLimiter.init, cleanOldTimestamps,
        List.filter]
    · norm_num [recordMany, recordRequest, RateLimiter.init]
    · norm_num [recordMany, recordRequest, RateLimiter.init, estimatedCost]

/-- C8 (counterexample): two limiters configured with different
per-token rates (0.15 versus 999) but identical state record the same
cost for the same request: the recorded cost does not depend on the
configured rate, refuting the claim. -/
theorem c8_record_request_counterexample :
    (recordRequest (RateLimiter.init 60 1000 10 (15/100)) 0 500).dailyCost
      = (recordRequest (RateLimiter.init 60 1000 10 999) 0 500).dailyCost ∧
    (RateLimiter.init 60 1000 10 (15/100)).costPer1kTokens
      ≠ (RateLimiter.init 60 1000 10 999).costPer1kTokens := by
  constructor
  · norm_num [recordRequest, RateLimiter.init]
  · norm_num [RateLimiter.init]

/-- C8 (amended): for every limiter state and token count,
`record_request` appends exactly one timestamp to the sliding window,
increments the day's request counter by 1, and adds to the day's cost
the estimate obtained by splitting the tokens as int(0.7·t) input and
int(0.3·t) output and pricing them at the fixed rates $0.15 and $0.60
per million tokens; the added cost is the same under any configured
`cost_per_1k_tokens`. -/
theorem c8_record_request_amended (mpm mpd : ℕ) (mdc cpk cpk2 : ℚ)
    (ts : List ℚ) (dr : ℕ) (dc now : ℚ) (tokens : ℕ) :
    recordRequest ⟨mpm, mpd, mdc, cpk, ts, dr, dc⟩ now tokens
      = ⟨mpm, mpd, mdc, cpk, ts ++ [now], dr + 1,
         dc + ((3 * (7 * tokens / 10 : ℕ) + 12 * (3 * tokens / 10 : ℕ) : ℕ) : ℚ)
            / 20000000⟩ ∧
    (recordRequest ⟨mpm, mpd, mdc, cpk, ts, dr, dc⟩ now tokens).dailyCost
      = (recordRequest ⟨mpm, mpd, mdc, cpk2, ts, dr, dc⟩ now tokens).dailyCost := by
  constructor
  · simp only [recordRequest, estimatedCost]
    refine congrArg (fun c => RateLimiter.mk mpm mpd mdc cpk (ts ++ [now]) (dr + 1) c) ?_
    push_cast
    ring
  · simp [recordRequest]

/-! ## Sentiment Scorer batching (src/sentiment/gpt_analyzer.py, batch_analyze)

`analyze_sentiment` always returns a result dictionary — cache hit,
gateway refusal, parse fallback or exception fallback — so the per-text
analysis is abstracted as an oracle from the text's position to its
result; the gateway verdict before each batch (`check_rate_limit`) is
likewise an oracle from the batch number. -/

/-- The result dictionary shape returned by `analyze_sentiment`. -/
structure AnalysisResult where
  sentiment : String
  score : ℚ
  reasoning : String
  confidence : ℚ
deriving DecidableEq

/-- The neutral refused observation `batch_analyze` fills in for every
remaining text when the gateway refuses before a batch. -/
def rateLimitNeutral : AnalysisResult :=
  ⟨"neutral", 0, "Rate limit reached", 0⟩

/-- The batch loop of `batch_analyze` over the already-truncated text
list: before batch `k` the gateway is consulted; on refusal every
remaining text receives the neutral refused observation and the loop
breaks; otherwise the next `batch_size` texts (positions `i`,
`i+1`, ...) are analyzed one by one and appended. -/
def batchLoop (bs : ℕ) (hb : 0 < bs) (allowed : ℕ → Bool)
    (analyze : ℕ → AnalysisResult) : ℕ → ℕ → List String → List AnalysisResult
  | _, _, [] => []
  | k, i, t :: tr =>
    if allowed k then
      ((List.range (min bs (t :: tr).length)).map fun j => analyze (i + j)) ++
        batchLoop bs hb allowed analyze (k + 1) (i + min bs (t :: tr).length)
          ((t :: tr).drop bs)
    else
      List.replicate (t :: tr).length rateLimitNeutral
termination_by _ _ ts => ts.length
decreasing_by simp [List.length_drop]; omega

/-- `batch_analyze`: truncate the request to
`max_texts = min(len(texts), max_texts_per_request)` texts, then run
the batch loop from batch 0 and text position 0. -/
def batchAnalyze (maxTexts bs : ℕ) (hb : 0 < bs) (allowed : ℕ → Bool)
    (analyze : ℕ → AnalysisResult) (texts : List String) : List AnalysisResult :=
  batchLoop bs hb allowed analyze 0 0 (texts.take (min texts.length maxTexts))

lemma batchLoop_length (bs : ℕ) (hb : 0 < bs) (allowed : ℕ → Bool)
    (analyze : ℕ → AnalysisResult) :
    ∀ n ts k i, ts.length ≤ n →
      (batchLoop bs hb allowed analyze k i ts).length = ts.length := by
  intro n
  induction n with
  | zero =>
      intro ts k i h
      have : ts = [] := List.length_eq_zero.mp (Nat.le_zero.mp h)
      subst this
      simp [batchLoop]
  | succ n ih =>
      intro ts k i h
      cases ts with
      | nil => simp [batchLoop]
      | cons t tr =>
          simp only [batchLoop]
          split
          · have hdrop : ((t :: tr).drop bs).length ≤ n := by
              simp only [List.length_drop, List.length_cons]
              simp only [List.length_cons] at h
              omega
            rw [List.length_append, List.length_map, List.length_range,
              ih ((t :: tr).drop bs) (k + 1) (i + min bs (t :: tr).length) hdrop]
            simp only [List.length_drop, List.length_cons]
            omega
          · simp

lemma batchLoop_refusal (bs : ℕ) (hb : 0 < bs) (allowed : ℕ → Bool)
    (analyze : ℕ → AnalysisResult) :
    ∀ K ts k i, (∀ d, d < K → allowed (k + d) = true) → allowed (k + K) = false →
      batchLoop bs hb allowed analyze k i ts
        = ((List.range (min (K * bs) ts.length)).map fun j => analyze (i + j))
          ++ List.replicate (ts.length - K * bs) rateLimitNeutral := by
  intro K
  induction K with
  | zero =>
      intro ts k i hall hK
      have hk : allowed k = false := by simpa using hK
      cases ts with
      | nil => simp [batchLoop]
      | cons t tr => simp [batchLoop, hk]
  | succ K ih =>
      intro ts k i hall hK
      cases ts with
      | nil => simp [batchLoop]
      | cons t tr =>
          have h0 : allowed k = true := by simpa using hall 0 (Nat.succ_pos K)
          have hall1 : ∀ d, d < K → allowed (k + 1 + d) = true := by
            intro d hd
            have := hall (d + 1) (by omega)
            simpa [Nat.add_comm, Nat.add_assoc, Nat.add_left_comm] using this
          have hK1 : allowed (k + 1 + K) = false := by
            have := hK
            simpa [Nat.succ_eq_add_one, Nat.add_comm, Nat.add_assoc,
              Nat.add_left_comm] using this
          have hrec := ih ((t :: tr).drop bs) (k + 1)
            (i + min bs (t :: tr).length) hall1 hK1
          simp only [batchLoop, h0, if_true]
          rw [hrec]
          simp only [List.length_drop]
          have hmul : (K + 1) * bs = K * bs + bs := by ring
          have hmin : min ((K + 1) * bs) (t :: tr).length
              = min bs (t :: tr).length
                + min (K * bs) ((t :: tr).length - bs) := by
            rw [hmul]
            omega
          have hsub : (t :: tr).length - bs - K * bs
              = (t :: tr).length - (K + 1) * bs := by
            rw [hmul]
            omega
          rw [hmin, hsub, List.range_add, List.map_append, List.map_map,
            List.append_assoc]
          have hfun : ((fun j => analyze (i + j))
                ∘ fun x => min bs (t :: tr).length + x)
              = fun j => analyze (i + min bs (t :: tr).length + j) := by
            funext j
            simp [Nat.add_assoc]
          rw [hfun]

/-- C9 (counterexample): with the default cap of 20 texts per request,
a request of 21 texts (gateway always allowing) yields 20 results, not
one per text of the request: the 21st text is silently dropped by the
truncation `texts_list[:max_texts]`. -/
theorem c9_batch_truncation_counterexample :
    (batchAnalyze 20 5 (Nat.succ_pos 4) (fun _ => true)
        (fun _ => rateLimitNeutral) (List.replicate 21 "t")).length = 20 ∧
    (List.replicate 21 "t" : List String).length = 21 ∧ (20 : ℕ) ≠ 21 := by
  refine ⟨?_, by simp, by omega⟩
  rw [batchAnalyze, batchLoop_length 5 (Nat.succ_pos 4) _ _
    ((List.replicate 21 "t" : List String).take (min (List.replicate 21 "t" : List String).length 20)).length _ 0 0 le_rfl]
  simp

/-- C9 (amended): for every positive batch size and every input list,
`batch_analyze` returns exactly one result per text of the capped
request (the first `min(len(texts), max_texts_per_request)` texts) and
never aborts: if the gateway first refuses before batch `K`, the
results are the analyses of the first `K·batch_size` capped texts
followed by the neutral refused observation (neutral label, score 0,
confidence 0) for every remaining capped text. -/
theorem c9_batch_partial_results (maxTexts bs : ℕ) (hb : 0 < bs)
    (allowed : ℕ → Bool) (analyze : ℕ → AnalysisResult) (texts : List String)
    (K : ℕ) (hall : ∀ d, d < K → allowed d = true) (hK : allowed K = false) :
    (batchAnalyze maxTexts bs hb allowed analyze texts).length
        = min texts.length maxTexts ∧
    batchAnalyze maxTexts bs hb allowed analyze texts
        = ((List.range (min (K * bs) (min texts.length maxTexts))).map analyze)
          ++ List.replicate (min texts.length maxTexts - K * bs) rateLimitNeutral ∧
    rateLimitNeutral.sentiment = "neutral" ∧ rateLimitNeutral.score = 0 ∧
    rateLimitNeutral.confidence = 0 := by
  have hlen : (texts.take (min texts.length maxTexts)).length
      = min texts.length maxTexts := by
    simp [List.length_take]
  refine ⟨?_, ?_, rfl, rfl, rfl⟩
  · rw [batchAnalyze, batchLoop_length bs hb allowed analyze
      (texts.take (min texts.length maxTexts)).length _ 0 0 le_rfl, hlen]
  · rw [batchAnalyze, batchLoop_refusal bs hb allowed analyze K _ 0 0
      (by simpa using hall) (by simpa using hK), hlen]
    simp

/-- C9 (witness): cap 20, batch size 3, seven texts, gateway allowing
batch 0 and refusing batch 1: seven results, the first three analyzed
and the remaining four neutral refused observations. -/
theorem c9_batch_partial_results_witness :
    (batchAnalyze 20 3 (Nat.succ_pos 2) (fun k => k == 0)
        (fun _ => ⟨"positive", 1, "r", 1⟩) (List.replicate 7 "t")).length = 7 ∧
    batchAnalyze 20 3 (Nat.succ_pos 2) (fun k => k == 0)
        (fun _ => ⟨"positive", 1, "r", 1⟩) (List.replicate 7 "t")
      = List.replicate 3 (⟨"positive", 1, "r", 1⟩ : AnalysisResult)
        ++ List.replicate 4 rateLimitNeutral := by
  have h := c9_batch_partial_results 20 3 (Nat.succ_pos 2) (fun k => k == 0)
    (fun _ => ⟨"positive", 1, "r", 1⟩) (List.replicate 7 "t") 1
    (by intro d hd; interval_cases d <;> rfl) rfl
  refine ⟨by simpa using h.1, ?_⟩
  rw [h.2.1]
  norm_num

/-! ## Backtest Simulator (src/strategy/backtesting_engine.py, run_backtest)

The daily loop is embedded as a structural recursion over the list of
closing prices.  The sentiment effective on day `i` (the as-of join
over the sentiment history, with the low-confidence neutral default) is
abstracted as an oracle `sent i = (weighted_score, confidence)`; the
indicator set computed from the price window ending on day `i` is an
oracle `ind i` (with `none` for the empty dictionary the code produces
on an indicator exception), applied only once at least 20 bars exist.
Python exceptions are made explicit: a raised exception truncates the
trace and is reported. -/

inductive TradeType
  | buy
  | sell
deriving DecidableEq

/-- One entry of the `trades` list. -/
structure Trade where
  day : ℕ
  trade_type : TradeType
  shares : ℤ
  price : ℚ
deriving DecidableEq

/-- The mutable portfolio: `shares` is embedded as ℤ (a Python int) so
that its non-negativity is a provable invariant rather than a typing
artifact. -/
structure Portfolio where
  cash : ℚ
  shares : ℤ
deriving DecidableEq

/-- The Python exceptions the embedded pipeline can raise. -/
inductive BtError
  | divisionByZero
  | keyErrorDailyReturn
  | indexError
deriving DecidableEq

/-- `int(position_value / current_price)`. -/
def sharesToBuy (positionValue price : ℚ) : ℤ := pyInt (positionValue / price)

/-- `shares_to_buy * current_price * (1 + self.transaction_cost)`. -/
def buyCost (n : ℤ) (price tc : ℚ) : ℚ := (n : ℚ) * price * (1 + tc)

/-- The trade step of one simulated day: on `buy` with positive cash,
size the position, floor-divide by the raw price (a zero price raises
ZeroDivisionError), skip on zero shares or unaffordable total cost,
else buy; on `sell` with shares held, liquidate everything at
`price·(1 - transaction_cost)`; otherwise do nothing. -/
def execTrade (tc : ℚ) (day : ℕ) (price : ℚ) (sig : Signal) (p : Portfolio) :
    Except BtError (Portfolio × Option Trade) :=
  match sig.signal_type with
  | SignalType.buy =>
      if 0 < p.cash then
        if price = 0 then Except.error BtError.divisionByZero
        else if 0 < sharesToBuy (calculatePositionSize p.cash sig.confidence) price then
          if buyCost (sharesToBuy (calculatePositionSize p.cash sig.confidence) price)
              price tc ≤ p.cash then
            Except.ok
              (⟨p.cash - buyCost (sharesToBuy (calculatePositionSize p.cash
                  sig.confidence) price) price tc,
                p.shares + sharesToBuy (calculatePositionSize p.cash
                  sig.confidence) price⟩,
               some ⟨day, TradeType.buy,
                 sharesToBuy (calculatePositionSize p.cash sig.confidence) price,
                 price⟩)
          else Except.ok (p, none)
        else Except.ok (p, none)
      else Except.ok (p, none)
  | SignalType.sell =>
      if 0 < p.shares then
        Except.ok
          (⟨p.cash + (p.shares : ℚ) * price * (1 - tc), 0⟩,
           some ⟨day, TradeType.sell, p.shares, price⟩)
      else Except.ok (p, none)
  | SignalType.hold => Except.ok (p, none)

/-- One entry of the `daily_values` list together with the day's trade. -/
structure DayRecord where
  day : ℕ
  price : ℚ
  post : Portfolio
  value : ℚ
  trade : Option Trade
deriving DecidableEq

/-- The daily loop of `run_backtest`: for each trading day generate the
signal from the as-of sentiment and the indicator window (computed only
once at least 20 bars exist), execute the trade step, and record the
end-of-day portfolio value `cash + shares·price`.  The result is the
trace of daily records, the final portfolio, and the first raised
exception if any. -/
def runDays (strat : SentimentTradingStrategy) (tc : ℚ) (sent : ℕ → ℚ × ℚ)
    (ind : ℕ → Option Indicators) :
    List ℚ → ℕ → Portfolio → List DayRecord × Portfolio × Option BtError
  | [], _, p => ([], p, none)
  | price :: rest, i, p =>
    match execTrade tc i price
        (generateSignal strat (sent i).1 (sent i).2
          (if 20 ≤ i + 1 then ind i else none)) p with
    | Except.error e => ([], p, some e)
    | Except.ok (q, tr) =>
        (⟨i, price, q, q.cash + (q.shares : ℚ) * price, tr⟩
            :: (runDays strat tc sent ind rest (i + 1) q).1,
         (runDays strat tc sent ind rest (i + 1) q).2.1,
         (runDays strat tc sent ind rest (i + 1) q).2.2)

/-- `pct_change` of the equity curve: one return per consecutive pair. -/
def pctChange (vals : List ℚ) : List ℚ :=
  List.zipWith (fun prev cur => (cur - prev) / prev) vals vals.tail

/-- Running products (`cumprod`) with accumulator. -/
def cumprodAux (acc : ℚ) : List ℚ → List ℚ
  | [] => []
  | x :: xs => (acc * x) :: cumprodAux (acc * x) xs

/-- `(1 + returns).cumprod()`. -/
def cumprod (l : List ℚ) : List ℚ := cumprodAux 1 l

/-- Running maxima (`cummax`) with accumulator. -/
def cummaxAux (acc : ℚ) : List ℚ → List ℚ
  | [] => []
  | x :: xs => pyMax acc x :: cummaxAux (pyMax acc x) xs

/-- `cummax` of a series. -/
def cummax : List ℚ → List ℚ
  | [] => []
  | x :: xs => x :: cummaxAux x xs

/-- Minimum of a series (`.min()`); 0 on the empty list, which the
metrics below never hit (the drawdown path requires at least two daily
values). -/
def listMin : List ℚ → ℚ
  | [] => 0
  | x :: xs => xs.foldl pyMin x

/-- Mean of a list (`np.mean`). -/
def listMean (l : List ℚ) : ℚ := l.sum / (l.length : ℚ)

/-- Population variance (`np.std` squared, ddof = 0); positive exactly
when `np.std > 0`. -/
def listVariance (l : List ℚ) : ℚ :=
  (l.map (fun x => (x - listMean l) ^ 2)).sum / (l.length : ℚ)

/-- The win-rate loop state: profitable sells, total sells, and the most
recently recorded buy price (`list(buy_prices.values())[-1]`, well
defined because trade dates are distinct). -/
def winRateFold (trades : List Trade) : ℕ × ℕ × Option ℚ :=
  trades.foldl
    (fun acc t =>
      match t.trade_type with
      | TradeType.buy => (acc.1, acc.2.1, some t.price)
      | TradeType.sell =>
          match acc.2.2 with
          | some bp =>
              (if bp < t.price then acc.1 + 1 else acc.1, acc.2.1 + 1, some bp)
          | none => (acc.1, acc.2.1 + 1, none))
    (0, 0, none)

/-- The win-rate metric: simplified single-lot matching, 0.0 with fewer
than two trades or no sell trades. -/
def winRate (trades : List Trade) : ℚ :=
  if 2 ≤ trades.length then
    if 0 < (winRateFold trades).2.1 then
      ((winRateFold trades).1 : ℚ) / ((winRateFold trades).2.1 : ℚ) * 100
    else 0
  else 0

/-- The metrics of the result payload.  The Sharpe ratio is
`mean/std·sqrt(252)`, an irrational of the rational pair (mean,
population variance); the pair is carried symbolically, `none` encoding
the code's 0.0 branch (fewer than two returns or zero variance). -/
structure BacktestMetrics where
  final_value : ℚ
  total_return : ℚ
  sharpe_mean_variance : Option (ℚ × ℚ)
  max_drawdown : ℚ
  win_rate : ℚ
  vs_sp500 : ℚ
  sp500_return : ℚ
  daily_returns : List ℚ
  total_trades : ℕ
deriving DecidableEq

/-- The post-loop metrics stage of `run_backtest`.  `daily_returns` is
the pct-change of the equity curve when more than one daily value
exists, else the single 0.0; `iloc[-1]` on an empty frame is an
IndexError; the drawdown block runs whenever at least one daily value
exists but reads the `daily_return` column, which was only created when
more than one exists — with exactly one daily value this is a KeyError.
(The leading NaN of the pandas column is dropped here, matching the
skipna semantics of `cumprod`, `cummax` and `min`.) -/
def runMetrics (initialCapital sp500Return : ℚ) (values : List ℚ)
    (trades : List Trade) : Except BtError BacktestMetrics :=
  match values.getLast? with
  | none => Except.error BtError.indexError
  | some finalValue =>
      if 0 < values.length then
        if 1 < values.length then
          Except.ok
            ⟨finalValue,
             (finalValue - initialCapital) / initialCapital * 100,
             (if 1 < (pctChange values).length ∧ 0 < listVariance (pctChange values)
              then some (listMean (pctChange values), listVariance (pctChange values))
              else none),
             listMin (List.zipWith (fun c m => (c - m) / m)
               (cumprod ((pctChange values).map (fun r => 1 + r)))
               (cummax (cumprod ((pctChange values).map (fun r => 1 + r))))) * 100,
             winRate trades,
             (finalValue - initialCapital) / initialCapital * 100 - sp500Return,
             sp500Return,
             pctChange values,
             trades.length⟩
        else Except.error BtError.keyErrorDailyReturn
      else
        Except.ok
          ⟨finalValue,
           (finalValue - initialCapital) / initialCapital * 100,
           none,
           0,
           winRate trades,
           (finalValue - initialCapital) / initialCapital * 100 - sp500Return,
           sp500Return,
           [0],
           trades.length⟩

/-- The observable outcome of `run_backtest`: the no-data error payload,
a raised exception, or the result payload. -/
inductive BacktestOutcome
  | noData
  | exn (e : BtError)
  | result (m : BacktestMetrics)
deriving DecidableEq

/-- `run_backtest` over an in-range price history: empty history yields
the structured no-data error; otherwise the daily loop runs and the
metrics stage is applied to its equity curve and trades. -/
def runBacktest (strat : SentimentTradingStrategy) (tc initialCapital : ℚ)
    (sent : ℕ → ℚ × ℚ) (ind : ℕ → Option Indicators) (sp500Return : ℚ)
    (prices : List ℚ) : BacktestOutcome :=
  match prices with
  | [] => BacktestOutcome.noData
  | _ :: _ =>
      match runDays strat tc sent ind prices 0 ⟨initialCapital, 0⟩ with
      | (_, _, some e) => BacktestOutcome.exn e
      | (recs, _, none) =>
          match runMetrics initialCapital sp500Return
              (recs.map (fun r => r.value)) (recs.filterMap (fun r => r.trade)) with
          | Except.error e => BacktestOutcome.exn e
          | Except.ok m => BacktestOutcome.result m

/-- The sentiment default of a backtest with no sentiment history:
weighted score 0, confidence 0.3. -/
def noSentiment : ℕ → ℚ × ℚ := fun _ => (0, 3/10)

/-- An indicator oracle for days before the 20-bar warm-up (never
consulted on a short history). -/
def noIndicatorData : ℕ → Option Indicators := fun _ => none

/-- C2 (code bug evaluation): on a valid one-day price history — one
trading day at price 100, default strategy and engine parameters, no
sentiment history — the backtest raises KeyError("daily_return"):
`daily_returns` is given the 1-element fallback `[0.0]` but the
`daily_return` column is created only when more than one daily value
exists, while the max-drawdown block reads that column whenever at
least one daily value exists.  The claim that no exception is raised
and all metrics are finite fails on this input. -/
theorem c2_one_day_history_keyerror :
    runBacktest (initStrategy (3/5) (2/5) (3/5) (-(3/5))) (1/1000) 100000
      noSentiment noIndicatorData 0 [100]
      = BacktestOutcome.exn BtError.keyErrorDailyReturn := by
  norm_num [runBacktest, runDays, runMetrics, execTrade, generateSignal,
    initStrategy, noSentiment, noIndicatorData, technicalScoreFull,
    technicalConfidence, pctChange]

lemma calculatePositionSize_pos (c conf : ℚ) (hc : 0 < c) :
    0 < calculatePositionSize c conf := by
  have hm : 0 < pyMin 2 (pyMax (1/2) (1/2 + conf * (3/2))) := by
    unfold pyMin pyMax
    split_ifs <;> linarith
  have hbase : 0 < c * (1/50) := by linarith
  exact mul_pos hbase hm

lemma sharesToBuy_floor (pv price : ℚ) (hpv : 0 < pv) (hp : 0 < price) :
    (sharesToBuy pv price : ℚ) * price ≤ pv
      ∧ pv < ((sharesToBuy pv price + 1 : ℤ) : ℚ) * price := by
  have hq : 0 ≤ pv / price := le_of_lt (div_pos hpv hp)
  unfold sharesToBuy pyInt
  rw [if_pos hq]
  constructor
  · calc ((⌊pv / price⌋ : ℤ) : ℚ) * price
        ≤ (pv / price) * price :=
          mul_le_mul_of_nonneg_right (Int.floor_le (pv / price)) (le_of_lt hp)
      _ = pv := div_mul_cancel₀ pv (ne_of_gt hp)
  · calc pv = (pv / price) * price := (div_mul_cancel₀ pv (ne_of_gt hp)).symm
      _ < (((⌊pv / price⌋ : ℤ) : ℚ) + 1) * price :=
          mul_lt_mul_of_pos_right (Int.lt_floor_add_one (pv / price)) hp
      _ = (((⌊pv / price⌋ + 1 : ℤ)) : ℚ) * price := by push_cast; ring

lemma runDays_filterMap_length (strat : SentimentTradingStrategy) (tc : ℚ)
    (sent : ℕ → ℚ × ℚ) (ind : ℕ → Option Indicators) :
    ∀ prices i p,
      ((runDays strat tc sent ind prices i p).1.filterMap
        (fun r => r.trade)).length ≤ prices.length := by
  intro prices
  induction prices with
  | nil =>
      intro i p
      simp [runDays]
  | cons price rest ih =>
      intro i p
      simp only [runDays]
      cases het : execTrade tc i price
          (generateSignal strat (sent i).1 (sent i).2
            (if 20 ≤ i + 1 then ind i else none)) p with
      | error e => simp
      | ok val =>
          obtain ⟨q, tr⟩ := val
          have hih := ih (i + 1) q
          cases tr with
          | none =>
              simp only [List.filterMap_cons, List.length_cons]
              omega
          | some t =>
              simp only [List.filterMap_cons, List.length_cons]
              omega

/-- C3 (amended): the trade step of each simulated day.  On a buy
signal with positive cash and price, the position is sized by
`calculate_position_size(cash, confidence)` and the share count is the
largest whole number `n` with `n·price ≤ position_value` (the raw
price, not the cost-inflated price); the trade additionally requires
`n > 0` and total cost `n·price·(1+transaction_cost) ≤ cash`, and is
skipped otherwise.  On a sell signal with shares held the entire
position is liquidated at `price·(1−transaction_cost)`; on hold, on a
buy without cash, or on a sell without shares, no trade occurs; and a
run records at most one trade per simulated day. -/
theorem c3_trade_step (strat : SentimentTradingStrategy) (tc : ℚ)
    (sent : ℕ → ℚ × ℚ) (ind : ℕ → Option Indicators) (prices : List ℚ)
    (i day : ℕ) (price : ℚ) (sig : Signal) (p : Portfolio) :
    (sig.signal_type = SignalType.buy → 0 < p.cash → 0 < price →
      ((sharesToBuy (calculatePositionSize p.cash sig.confidence) price : ℚ) * price
          ≤ calculatePositionSize p.cash sig.confidence
        ∧ calculatePositionSize p.cash sig.confidence
          < ((sharesToBuy (calculatePositionSize p.cash sig.confidence) price + 1 : ℤ) : ℚ)
            * price) ∧
      (0 < sharesToBuy (calculatePositionSize p.cash sig.confidence) price →
        buyCost (sharesToBuy (calculatePositionSize p.cash sig.confidence) price)
            price tc ≤ p.cash →
        execTrade tc day price sig p
          = Except.ok
              (⟨p.cash - buyCost (sharesToBuy (calculatePositionSize p.cash
                  sig.confidence) price) price tc,
                p.shares + sharesToBuy (calculatePositionSize p.cash
                  sig.confidence) price⟩,
               some ⟨day, TradeType.buy,
                 sharesToBuy (calculatePositionSize p.cash sig.confidence) price,
                 price⟩)) ∧
      (sharesToBuy (calculatePositionSize p.cash sig.confidence) price ≤ 0 →
        execTrade tc day price sig p = Except.ok (p, none)) ∧
      (p.cash < buyCost (sharesToBuy (calculatePositionSize p.cash
          sig.confidence) price) price tc →
        execTrade tc day price sig p = Except.ok (p, none))) ∧
    (sig.signal_type = SignalType.sell → 0 < p.shares →
      execTrade tc day price sig p
        = Except.ok (⟨p.cash + (p.shares : ℚ) * price * (1 - tc), 0⟩,
            some ⟨day, TradeType.sell, p.shares, price⟩)) ∧
    (sig.signal_type = SignalType.sell → p.shares ≤ 0 →
      execTrade tc day price sig p = Except.ok (p, none)) ∧
    (sig.signal_type = SignalType.hold →
      execTrade tc day price sig p = Except.ok (p, none)) ∧
    (sig.signal_type = SignalType.buy → p.cash ≤ 0 →
      execTrade tc day price sig p = Except.ok (p, none)) ∧
    ((runDays strat tc sent ind prices i p).1.filterMap
      (fun r => r.trade)).length ≤ prices.length := by
  refine ⟨?_, ?_, ?_, ?_, ?_, runDays_filterMap_length strat tc sent ind prices i p⟩
  · intro hsig hcash hprice
    refine ⟨sharesToBuy_floor _ _ (calculatePositionSize_pos _ _ hcash) hprice,
      ?_, ?_, ?_⟩
    · intro hn hcost
      simp [execTrade, hsig, hcash, ne_of_gt hprice, hn, hcost]
    · intro hn
      simp [execTrade, hsig, hcash, ne_of_gt hprice, not_lt.mpr hn]
    · intro hcost
      by_cases hn : 0 < sharesToBuy (calculatePositionSize p.cash sig.confidence) price
      · simp [execTrade, hsig, hcash, ne_of_gt hprice, hn, not_le.mpr hcost]
      · simp [execTrade, hsig, hcash, ne_of_gt hprice, hn]
  · intro hsig hshares
    simp [execTrade, hsig, hshares]
  · intro hsig hshares
    simp [execTrade, hsig, not_lt.mpr hshares]
  · intro hsig
    simp [execTrade, hsig]
  · intro hsig hcash
    simp [execTrade, hsig, not_lt.mpr hcash]

/-- Modelled from the claim's words: the largest whole number of shares
affordable under `price·(1+transaction_cost_rate)` within the sized
position. -/
def claimAffordableShares (positionValue price tc : ℚ) : ℤ :=
  ⌊positionValue / (price * (1 + tc))⌋

/-- C3 (counterexample): a one-day run — normalized weights 0.6/0.4,
buy threshold 0.5, transaction cost 10 percent, price 10, sentiment
(1, 1), cash 100000 — buys 316 shares (`int(position_value/price)` on
the raw price) at total cost 3476, although the sized position is 3160
and the largest share count affordable under `price·(1+rate)` is 287:
the code buys more than the claim's affordable count. -/
theorem c3_sizing_counterexample :
    (runDays (initStrategy (3/5) (2/5) (1/2) (-(1/2))) (1/10)
        (fun _ => (1, 1)) noIndicatorData [10] 0 ⟨100000, 0⟩).1.map
        (fun r => r.trade)
      = [some ⟨0, TradeType.buy, 316, 10⟩] ∧
    calculatePositionSize 100000 (18/25) = 3160 ∧
    claimAffordableShares 3160 10 (1/10) = 287 ∧
    ((316 : ℤ) ≠ 287) ∧
    buyCost 316 10 (1/10) = 3476 ∧ ¬ ((3476 : ℚ) ≤ 3160) := by
  refine ⟨?_, ?_, ?_, by omega, ?_, by norm_num⟩
  · norm_num [runDays, execTrade, generateSignal, initStrategy, noIndicatorData,
      technicalScoreFull, technicalConfidence, calculatePositionSize,
      sharesToBuy, buyCost, pyInt, pyMin, pyMax]
  · norm_num [calculatePositionSize, pyMin, pyMax]
  · norm_num [claimAffordableShares]
  · norm_num [buyCost]

/-- C3 (witness): the buy-execution case of the amended claim evaluated
at the counterexample's day: signal buy with confidence 0.72, cash
100000, price 10, transaction cost 10 percent — the portfolio ends with
cash 96524 and 316 shares and the buy trade is recorded. -/
theorem c3_trade_step_witness :
    execTrade (1/10) 0 10 ⟨SignalType.buy, 18/25, 3/5⟩ ⟨100000, 0⟩
      = Except.ok (⟨96524, 316⟩, some ⟨0, TradeType.buy, 316, 10⟩) := by
  have h := (c3_trade_step (initStrategy (3/5) (2/5) (1/2) (-(1/2))) (1/10)
    (fun _ => (1, 1)) noIndicatorData [] 0 0 10
    ⟨SignalType.buy, 18/25, 3/5⟩ ⟨100000, 0⟩).1 rfl (by norm_num) (by norm_num)
  have hn : (0 : ℤ) < sharesToBuy (calculatePositionSize 100000 (18/25)) 10 := by
    norm_num [sharesToBuy, calculatePositionSize, pyInt, pyMin, pyMax]
  have hcost : buyCost (sharesToBuy (calculatePositionSize 100000 (18/25)) 10)
      10 (1/10) ≤ 100000 := by
    norm_num [sharesToBuy, buyCost, calculatePositionSize, pyInt, pyMin, pyMax]
  have hexec := h.2.1 hn hcost
  rw [hexec]
  norm_num [sharesToBuy, buyCost, calculatePositionSize, pyInt, pyMin, pyMax]

lemma execTrade_preserves (tc : ℚ) (day : ℕ) (price : ℚ) (sig : Signal)
    (p : Portfolio) (hc : 0 ≤ p.cash) (hs : 0 ≤ p.shares) (hp : 0 ≤ price)
    (h0 : 0 ≤ tc) (h1 : tc ≤ 1) :
    ∀ q tr, execTrade tc day price sig p = Except.ok (q, tr) →
      0 ≤ q.cash ∧ 0 ≤ q.shares := by
  intro q tr h
  obtain ⟨st, conf, fs⟩ := sig
  have hsq : (0 : ℚ) ≤ (p.shares : ℚ) := by exact_mod_cast hs
  have htc1 : (0 : ℚ) ≤ 1 - tc := by linarith
  have hrev : 0 ≤ (p.shares : ℚ) * price * (1 - tc) := by positivity
  cases st <;> simp only [execTrade] at h <;> (try split_ifs at h) <;>
    first
      | exact Except.noConfusion h
      | (simp only [Except.ok.injEq, Prod.mk.injEq] at h
         obtain ⟨hq, -⟩ := h
         subst hq
         constructor <;> (try dsimp only) <;> linarith)

/-- C4: throughout every backtest run — after the trade step of every
simulated day and at the end of the run — the portfolio satisfies
cash ≥ 0 and shares ≥ 0 (no short selling, no margin), for every
strategy configuration, every sentiment history, every indicator
history, every non-negative price history, every non-negative starting
capital and every transaction-cost rate in [0, 1]. -/
theorem c4_no_short_no_margin (strat : SentimentTradingStrategy) (tc : ℚ)
    (sent : ℕ → ℚ × ℚ) (ind : ℕ → Option Indicators) (prices : List ℚ)
    (initialCapital : ℚ) (hcap : 0 ≤ initialCapital) (h0 : 0 ≤ tc) (h1 : tc ≤ 1)
    (hp : ∀ x ∈ prices, 0 ≤ x) :
    (∀ r ∈ (runDays strat tc sent ind prices 0 ⟨initialCapital, 0⟩).1,
        0 ≤ r.post.cash ∧ 0 ≤ r.post.shares) ∧
    0 ≤ (runDays strat tc sent ind prices 0 ⟨initialCapital, 0⟩).2.1.cash ∧
    0 ≤ (runDays strat tc sent ind prices 0 ⟨initialCapital, 0⟩).2.1.shares := by
  suffices hgen : ∀ prices2 i (p : Portfolio), 0 ≤ p.cash → 0 ≤ p.shares →
      (∀ x ∈ prices2, (0 : ℚ) ≤ x) →
      (∀ r ∈ (runDays strat tc sent ind prices2 i p).1,
          0 ≤ r.post.cash ∧ 0 ≤ r.post.shares) ∧
      0 ≤ (runDays strat tc sent ind prices2 i p).2.1.cash ∧
      0 ≤ (runDays strat tc sent ind prices2 i p).2.1.shares by
    exact hgen prices 0 ⟨initialCapital, 0⟩ hcap le_rfl hp
  intro prices2
  induction prices2 with
  | nil =>
      intro i p hc hs hp2
      simp only [runDays]
      exact ⟨by simp, hc, hs⟩
  | cons price rest ih =>
      intro i p hc hs hp2
      have hprice : 0 ≤ price := hp2 price (List.mem_cons_self price rest)
      have hrest : ∀ x ∈ rest, (0 : ℚ) ≤ x :=
        fun x hx => hp2 x (List.mem_cons_of_mem price hx)
      simp only [runDays]
      cases het : execTrade tc i price
          (generateSignal strat (sent i).1 (sent i).2
            (if 20 ≤ i + 1 then ind i else none)) p with
      | error e =>
          exact ⟨by simp, hc, hs⟩
      | ok val =>
          obtain ⟨q, tr⟩ := val
          have hq := execTrade_preserves tc i price _ p hc hs hprice h0 h1 q tr het
          have hrec := ih (i + 1) q hq.1 hq.2 hrest
          refine ⟨?_, hrec.2.1, hrec.2.2⟩
          intro r hr
          simp only [List.mem_cons] at hr
          rcases hr with rfl | hr
          · exact hq
          · exact hrec.1 r hr

/-- C4 (witness): the invariant evaluated on a concrete one-day run with
the default configuration. -/
theorem c4_no_short_no_margin_witness :
    (∀ x ∈ ([100] : List ℚ), (0 : ℚ) ≤ x) ∧
    0 ≤ (runDays (initStrategy (3/5) (2/5) (3/5) (-(3/5))) (1/1000)
        noSentiment noIndicatorData [100] 0 ⟨100000, 0⟩).2.1.cash ∧
    0 ≤ (runDays (initStrategy (3/5) (2/5) (3/5) (-(3/5))) (1/1000)
        noSentiment noIndicatorData [100] 0 ⟨100000, 0⟩).2.1.shares :=
  ⟨by intro x hx; simp at hx; simp [hx],
   (c4_no_short_no_margin (initStrategy (3/5) (2/5) (3/5) (-(3/5))) (1/1000)
      noSentiment noIndicatorData [100] 100000 (by norm_num) (by norm_num)
      (by norm_num) (by intro x hx; simp at hx; simp [hx])).2⟩

end SentimentTrading

